import Mathlib

/-
Verification development for the gpu-coordinator daemon
(src/gpu-coordinator.py). The Python source is shallowly embedded below:
the process classifier, the service controller actions, and one iteration
of the main monitoring loop become pure Lean functions; the external world
(process table, systemd activity probes, command success) is supplied as an
explicit input per tick. Timestamps (Python time.time floats) are modelled
as natural numbers; the only use the source makes of them is the comparison
elapsed >= grace_period, whose branch agrees with truncated Nat subtraction
because grace_period is positive.
-/

set_option autoImplicit false

namespace GpuCoordinator

/-- An observed process: pid plus its command line joined by spaces
(proc.cmdline() joined with a space). The value none models a
psutil.NoSuchProcess or psutil.AccessDenied raised while reading the
command line, which the source catches and treats as a non-match. -/
structure ProcInfo where
  pid : Nat
  cmdline : Option (List Char)
deriving DecidableEq

/-- The literal pattern set self.gpu_intensive_processes from __init__. -/
def gpu_intensive_processes : List (List Char) :=
  [String.toList "rdb", String.toList "python -m rdb",
   String.toList "embedding", String.toList "indexing",
   String.toList "trainer", String.toList "finetune"]

/-- The keyword list gpu_keywords local to _is_process_gpu_intensive. -/
def gpu_keywords : List (List Char) :=
  [String.toList "embed", String.toList "index", String.toList "build",
   String.toList "train", String.toList "finetune"]

/-- self.grace_period (seconds before stopping vLLM). -/
def grace_period : Nat := 8

/-- self.check_interval (seconds between checks). -/
def check_interval : Nat := 3

/-- Substring containment on character lists: containsSub pat hay is the
Python expression pat in hay for strings. -/
def containsSub (pat : List Char) : List Char → Bool
  | [] => pat.isEmpty
  | c :: t => pat.isPrefixOf (c :: t) || containsSub pat t

/-- ASCII lowercasing of one character; models Python str.lower on the
ASCII command lines this development evaluates. -/
def lowerChar (c : Char) : Char :=
  if 'A' ≤ c ∧ c ≤ 'Z' then Char.ofNat (c.toNat + 32) else c

/-- ASCII lowercasing of a character list (Python cmdline.lower()). -/
def lowerStr (s : List Char) : List Char := s.map lowerChar

/-- GPUCoordinator._is_process_gpu_intensive: a failed command-line read is
False; otherwise True iff some literal pattern is a substring of the
command line (case-sensitive), else iff some keyword is a substring of the
lowercased command line. -/
def is_process_gpu_intensive (cmdline : Option (List Char)) : Bool :=
  match cmdline with
  | none => false
  | some c =>
    if gpu_intensive_processes.any (fun pattern => containsSub pattern c) then
      true
    else if gpu_keywords.any (fun keyword => containsSub keyword (lowerStr c)) then
      true
    else
      false

/-- GPUCoordinator._get_gpu_intensive_processes over a snapshot of the
process table: keep exactly the processes the classifier matches. -/
def get_gpu_intensive_processes (snapshot : List ProcInfo) : List ProcInfo :=
  snapshot.filter (fun proc => is_process_gpu_intensive proc.cmdline)

/-- A privileged systemctl command issued via sudo by the coordinator. -/
inductive Cmd where
  | stop
  | start
deriving DecidableEq

/-- The durable coordinator state across ticks: self.vllm_was_running and
self.gpu_process_start_time. -/
structure CoordState where
  vllm_was_running : Bool
  gpu_process_start_time : Option Nat
deriving DecidableEq

/-- The state at construction: vllm_was_running = False,
gpu_process_start_time = None. -/
def initState : CoordState := ⟨false, none⟩

/-- An exception escaping the tick body: KeyboardInterrupt (caught by the
except clause of run) or any other exception (uncaught). -/
inductive Interrupt where
  | keyboard
  | other
deriving DecidableEq

/-- The environment's behaviour during one loop iteration: an exception
raised in the tick body (if any), the process-table snapshot, the two
time.time() readings (line 139 when the timer is first set, line 144 for
the elapsed computation), the two _is_vllm_running probes (line 145 in run
and line 97 inside _stop_vllm), and whether the privileged stop / start
commands exit successfully. -/
structure TickInput where
  raised : Option Interrupt
  snapshot : List ProcInfo
  time1 : Nat
  time2 : Nat
  vllm_active1 : Bool
  vllm_active2 : Bool
  stop_ok : Bool
  start_ok : Bool
deriving DecidableEq

/-- GPUCoordinator._stop_vllm given the current vllm_was_running flag, the
internal _is_vllm_running probe and the stop command's success: if the
probe says inactive, no command is issued; otherwise the privileged stop
command is issued, and only on success is vllm_was_running set to True
(a CalledProcessError is logged and leaves the flag unchanged). -/
def stop_vllm (vllm_was_running : Bool) (active2 stop_ok : Bool) :
    Bool × List Cmd :=
  if active2 then
    if stop_ok then (true, [Cmd.stop]) else (vllm_was_running, [Cmd.stop])
  else
    (vllm_was_running, [])

/-- GPUCoordinator._start_vllm: only when vllm_was_running is True is the
privileged start command issued; on success the flag is cleared, on a
CalledProcessError it is logged and the flag is left set. -/
def start_vllm (vllm_was_running : Bool) (start_ok : Bool) :
    Bool × List Cmd :=
  if vllm_was_running then
    if start_ok then (false, [Cmd.start]) else (vllm_was_running, [Cmd.start])
  else
    (vllm_was_running, [])

/-- One iteration of the while loop in GPUCoordinator.run (lines 134-160),
without the raised-exception short circuit (loopExec adds it): classify the
snapshot; if non-empty, set the timer if unset (to time1) and, when the
elapsed time since the timer reaches grace_period and the first activity
probe succeeds, run _stop_vllm; if empty and the timer is set, clear the
timer and, if vllm_was_running, run _start_vllm. Returns the new state and
the privileged commands issued. -/
def tick (st : CoordState) (inp : TickInput) : CoordState × List Cmd :=
  let gpu := get_gpu_intensive_processes inp.snapshot
  if gpu.isEmpty then
    match st.gpu_process_start_time with
    | none => (st, [])
    | some _ =>
      if st.vllm_was_running then
        let r := start_vllm st.vllm_was_running inp.start_ok
        (⟨r.1, none⟩, r.2)
      else
        (⟨st.vllm_was_running, none⟩, [])
  else
    let t0 := st.gpu_process_start_time.getD inp.time1
    if grace_period ≤ inp.time2 - t0 && inp.vllm_active1 then
      let r := stop_vllm st.vllm_was_running inp.vllm_active2 inp.stop_ok
      (⟨r.1, some t0⟩, r.2)
    else
      (⟨st.vllm_was_running, some t0⟩, [])

/-- The per-tick record of a run: state before the tick, the tick's
environment input, and the commands the tick issued. -/
def trace (st : CoordState) : List TickInput → List (CoordState × TickInput × List Cmd)
  | [] => []
  | inp :: rest => (st, inp, (tick st inp).2) :: trace (tick st inp).1 rest

/-- Folding tick over a list of inputs: the state after those ticks. -/
def execTicks (st : CoordState) : List TickInput → CoordState
  | [] => st
  | inp :: rest => execTicks (tick st inp).1 rest

/-- The while loop of GPUCoordinator.run: process inputs one tick at a
time; exhausting the list models self.running turning False. An input
whose raised field is set models an exception escaping that tick's body:
the loop terminates there (the tick has no effect in this model) and the
exception is reported. Returns the state at loop exit, the per-tick trace
actually executed, and the escaping exception if any. -/
def loopExec (st : CoordState) : List TickInput →
    CoordState × List (CoordState × TickInput × List Cmd) × Option Interrupt
  | [] => (st, [], none)
  | inp :: rest =>
    match inp.raised with
    | some i => (st, [], some i)
    | none =>
      let s := tick st inp
      let r := loopExec s.1 rest
      (r.1, (st, inp, s.2) :: r.2.1, r.2.2)

/-- The finally block of GPUCoordinator.run (lines 164-170): if
vllm_was_running, call _start_vllm. Returns the post-cleanup state and the
commands issued during cleanup. -/
def cleanup (st : CoordState) (start_ok : Bool) : CoordState × List Cmd :=
  if st.vllm_was_running then
    let r := start_vllm st.vllm_was_running start_ok
    (⟨r.1, st.gpu_process_start_time⟩, r.2)
  else
    (st, [])

/-- GPUCoordinator.run end to end: the while loop inside
try/except KeyboardInterrupt/finally. The finally cleanup runs whatever
ended the loop; a KeyboardInterrupt is swallowed by the except clause,
while any other exception propagates out after the finally block. Returns
the final state, the commands issued by cleanup, and the exception that
escapes run (none unless the loop died of a non-KeyboardInterrupt
exception). -/
def runLoop (st : CoordState) (inps : List TickInput) (cleanup_start_ok : Bool) :
    CoordState × List Cmd × Option Interrupt :=
  let r := loopExec st inps
  let c := cleanup r.1 cleanup_start_ok
  let escaped : Option Interrupt :=
    match r.2.2 with
    | some Interrupt.other => some Interrupt.other
    | _ => none
  (c.1, c.2, escaped)

/-- A concrete observed process running the rdb batch job. -/
def procRdb : ProcInfo := ⟨1, some (String.toList "python -m rdb")⟩

/-- A one-process snapshot that the classifier matches. -/
def spRdb : List ProcInfo := [procRdb]

/-- A contending tick: rdb visible, grace period elapsed (timer set at 0,
elapsed probe at 10), both activity probes succeed, stop succeeds. -/
def inpContend : TickInput := ⟨none, spRdb, 0, 10, true, true, true, true⟩

/-- A later contending tick with the service observed active again (an
external restart while suspended): both probes succeed, stop succeeds. -/
def inpContend2 : TickInput := ⟨none, spRdb, 20, 20, true, true, true, true⟩

/-- A contending tick while the service stays down (both probes false), as
when nobody restarted it behind the coordinator's back. -/
def inpContendDown : TickInput := ⟨none, spRdb, 20, 20, false, false, true, true⟩

/-- A tick whose classification is empty and whose start command fails. -/
def inpClearFail : TickInput := ⟨none, [], 12, 12, false, false, false, false⟩

/-- A tick whose classification is empty and whose start command would
succeed if it were issued. -/
def inpEmptyOk : TickInput := ⟨none, [], 15, 15, false, false, false, true⟩

/-- A tick in whose body a non-KeyboardInterrupt exception is raised. -/
def inpRaise : TickInput := ⟨some Interrupt.other, spRdb, 0, 0, true, true, true, true⟩

theorem trace_cmds (inps : List TickInput) : ∀ (st : CoordState),
    ∀ e ∈ trace st inps, e.2.2 = (tick e.1 e.2.1).2 := by
  induction inps with
  | nil => intro st e he; simp [trace] at he
  | cons i rest ih =>
    intro st e he
    rw [trace] at he
    rcases List.mem_cons.mp he with rfl | he
    · rfl
    · exact ih (tick st i).1 e he

theorem tick_cmds_shape (st : CoordState) (inp : TickInput) :
    (tick st inp).2 = [] ∨ (tick st inp).2 = [Cmd.start] ∨
    ((tick st inp).2 = [Cmd.stop] ∧ inp.vllm_active2 = true) := by
  unfold tick start_vllm stop_vllm
  repeat' split
  all_goals try simp_all
  all_goals repeat' split
  all_goals simp_all

/-- C5: the classifier keeps a process whose command line is
python -m rdb --build (the literal pattern rdb is a substring), and on a
snapshot holding only sshd: user@pts/0 it returns the empty set. -/
theorem C5_classifier_scenarios :
    get_gpu_intensive_processes [⟨1, some (String.toList "python -m rdb --build")⟩] =
      [⟨1, some (String.toList "python -m rdb --build")⟩] ∧
    get_gpu_intensive_processes [⟨2, some (String.toList "sshd: user@pts/0")⟩] = [] := by
  decide

/-- C7, counterexample: _start_vllm called with vllm_was_running false
issues no privileged start command at all, refuting the claim that start
issues the command unconditionally regardless of that flag. -/
theorem C7_counterexample : Cmd.start ∉ (start_vllm false true).2 := by
  decide

/-- C7, amended: _start_vllm issues the privileged start command if and
only if vllm_was_running is true (the guard is inside the function, not
only at its call sites). -/
theorem C7_start_guarded (vllm_was_running start_ok : Bool) :
    Cmd.start ∈ (start_vllm vllm_was_running start_ok).2 ↔ vllm_was_running = true := by
  cases vllm_was_running <;> cases start_ok <;> decide

/-- C9: after any completed tick, gpu_process_start_time equals none
exactly when the tick's classification was empty; when non-empty it holds
the previous timer value, or this tick's clock reading when contention was
first observed. -/
theorem C9_timer_iff_contention (st : CoordState) (inp : TickInput) :
    (tick st inp).1.gpu_process_start_time =
      (if (get_gpu_intensive_processes inp.snapshot).isEmpty then none
       else some (st.gpu_process_start_time.getD inp.time1)) ∧
    (tick st inp).1.gpu_process_start_time.isSome =
      !(get_gpu_intensive_processes inp.snapshot).isEmpty := by
  obtain ⟨fl, timer⟩ := st
  cases h : (get_gpu_intensive_processes inp.snapshot).isEmpty <;>
    cases timer <;>
      simp [tick, h] <;> split <;> simp

/-- C1, counterexample: starting from the initial state, a contending tick
past the grace period stops the service (vllm_was_running becomes true);
on the next contending tick the service is observed active again (external
restart), and the coordinator issues a second privileged stop while
vllm_was_running is already true. -/
theorem C1_counterexample :
    ¬ (∀ e ∈ trace initState [inpContend, inpContend2],
        Cmd.stop ∈ e.2.2 → e.1.vllm_was_running = false) := by
  decide

/-- C2, counterexample: after a successful stop, the contention-clearing
tick attempts start and fails (vllm_was_running stays true, timer cleared);
the next empty-classification tick issues no command at all, so the failed
resume is not retried on a subsequent empty tick. -/
theorem C2_counterexample :
    (trace initState [inpContend, inpClearFail, inpEmptyOk])[1]? =
      some (⟨true, some 0⟩, inpClearFail, [Cmd.start]) ∧
    (trace initState [inpContend, inpClearFail, inpEmptyOk])[2]? =
      some (⟨true, none⟩, inpEmptyOk, []) := by
  decide

/-- C8, counterexample: a non-KeyboardInterrupt exception raised in a tick
body terminates the loop at once (the following tick never executes) and
propagates out of run after cleanup, instead of being caught and the loop
continuing. -/
theorem C8_counterexample :
    loopExec initState [inpRaise, inpContend] = (initState, [], some Interrupt.other) ∧
    (runLoop initState [inpRaise, inpContend] true).2.2 = some Interrupt.other := by
  decide

/-- C1, amended: provided the service is never observed active by the stop
path while service_suspended_by_us (vllm_was_running) is already true — that
is, nothing restarts the service behind the coordinator's back during a
suspension — the privileged stop command is never issued while the flag is
true, for every sequence of ticks from the initial state. -/
theorem C1_no_double_stop (inps : List TickInput)
    (h : ∀ e ∈ trace initState inps,
      e.1.vllm_was_running = true → e.2.1.vllm_active2 = false) :
    ∀ e ∈ trace initState inps, Cmd.stop ∈ e.2.2 → e.1.vllm_was_running = false := by
  intro e he hstop
  cases hb : e.1.vllm_was_running
  · rfl
  · exfalso
    have h2 := h e he hb
    have h3 := trace_cmds inps initState e he
    rw [h3] at hstop
    rcases tick_cmds_shape e.1 e.2.1 with h4 | h4 | ⟨h4, h5⟩
    · rw [h4] at hstop; simp at hstop
    · rw [h4] at hstop; simp at hstop
    · rw [h5] at h2; exact Bool.noConfusion h2

/-- C1, witness: a run that stops the service once and then keeps observing
contention while the service stays down satisfies the no-external-restart
hypothesis, and indeed never stops while the flag is true. -/
theorem C1_no_double_stop_witness :
    (∀ e ∈ trace initState [inpContend, inpContendDown],
      e.1.vllm_was_running = true → e.2.1.vllm_active2 = false) ∧
    (∀ e ∈ trace initState [inpContend, inpContendDown],
      Cmd.stop ∈ e.2.2 → e.1.vllm_was_running = false) :=
  ⟨by decide, C1_no_double_stop [inpContend, inpContendDown] (by decide)⟩

/-- C2, amended: when start fails on the contention-clearing tick the owed
resume flag vllm_was_running does stay true (and the start command was
attempted), but a subsequent tick with empty classification and a cleared
timer does nothing at all — the retry is not made on ordinary empty ticks;
it is guaranteed only by the process-exit cleanup (or by the clearing tick
of a later contention episode). -/
theorem C2_retry_only_at_cleanup (st : CoordState) (inp : TickInput)
    (hflag : st.vllm_was_running = true) :
    start_vllm st.vllm_was_running false = (true, [Cmd.start]) ∧
    (st.gpu_process_start_time = none →
      (get_gpu_intensive_processes inp.snapshot).isEmpty = true →
      tick st inp = (st, [])) ∧
    Cmd.start ∈ (cleanup st inp.start_ok).2 := by
  refine ⟨by rw [hflag]; rfl, ?_, ?_⟩
  · intro hnone hemp
    obtain ⟨fl, timer⟩ := st
    simp only at hnone
    subst hnone
    simp [tick, hemp]
  · cases hok : inp.start_ok <;> simp [cleanup, start_vllm, hflag]

/-- C2, witness: with the flag owed and the timer cleared, an empty tick
whose start command would succeed still issues nothing, while cleanup from
that state does issue the start command. -/
theorem C2_retry_only_at_cleanup_witness :
    tick ⟨true, none⟩ inpEmptyOk = (⟨true, none⟩, []) ∧
    Cmd.start ∈ (cleanup ⟨true, none⟩ inpEmptyOk.start_ok).2 :=
  ⟨(C2_retry_only_at_cleanup ⟨true, none⟩ inpEmptyOk rfl).2.1 rfl (by decide),
   (C2_retry_only_at_cleanup ⟨true, none⟩ inpEmptyOk rfl).2.2⟩

/-- C3: whatever sequence of ticks the loop executed, if vllm_was_running
is true at loop exit then the finally-block cleanup issues the privileged
start command before the process terminates, and this holds for every exit
cause runLoop models (input exhaustion through should-run, a
KeyboardInterrupt, or any other exception raised in a tick body). -/
theorem C3_resume_owed_at_exit (inps : List TickInput) (ok : Bool)
    (h : (loopExec initState inps).1.vllm_was_running = true) :
    Cmd.start ∈ (runLoop initState inps ok).2.1 := by
  unfold runLoop
  simp only []
  cases ok <;> simp [cleanup, start_vllm, h]

/-- C3, witness: after a single tick that stops the service, the flag is
owed at exit and the cleanup command list of the full run holds start. -/
theorem C3_resume_owed_at_exit_witness :
    (loopExec initState [inpContend]).1.vllm_was_running = true ∧
    Cmd.start ∈ (runLoop initState [inpContend] true).2.1 :=
  ⟨by decide, C3_resume_owed_at_exit [inpContend] true (by decide)⟩

theorem tick_nonempty_short (fl : Bool) (t0 : Nat) (inp : TickInput)
    (hne : (get_gpu_intensive_processes inp.snapshot).isEmpty = false)
    (hsh : inp.time2 < t0 + grace_period) :
    tick ⟨fl, some t0⟩ inp = (⟨fl, some t0⟩, []) := by
  have hg : grace_period = 8 := rfl
  have hlt : ¬ grace_period ≤ inp.time2 - t0 := by omega
  simp [tick, hne, hlt]

theorem tick_start_timer (fl : Bool) (inp : TickInput)
    (hne : (get_gpu_intensive_processes inp.snapshot).isEmpty = false)
    (hsh : inp.time2 < inp.time1 + grace_period) :
    tick ⟨fl, none⟩ inp = (⟨fl, some inp.time1⟩, []) := by
  have hg : grace_period = 8 := rfl
  have hlt : ¬ grace_period ≤ inp.time2 - inp.time1 := by omega
  simp [tick, hne, hlt]

theorem trace_no_stop_aux (t0 : Nat) (inps : List TickInput) :
    ∀ (fl : Bool),
    (∀ inp ∈ inps, (get_gpu_intensive_processes inp.snapshot).isEmpty = false) →
    (∀ inp ∈ inps, inp.time2 < t0 + grace_period) →
    ∀ e ∈ trace ⟨fl, some t0⟩ inps, Cmd.stop ∉ e.2.2 := by
  induction inps with
  | nil => intro fl _ _ e he; simp [trace] at he
  | cons i rest ih =>
    intro fl hne hdur e he
    have hti := tick_nonempty_short fl t0 i
      (hne i (List.mem_cons_self i rest)) (hdur i (List.mem_cons_self i rest))
    rw [trace, hti] at he
    rcases List.mem_cons.mp he with rfl | he2
    · simp
    · exact ih fl (fun j hj => hne j (List.mem_cons_of_mem i hj))
        (fun j hj => hdur j (List.mem_cons_of_mem i hj)) e he2

/-- C4: over a contention episode starting from a clear timer, in which
every tick of the episode observes contention and every elapsed-time probe
stays below the first observation's timestamp plus grace_period (the
episode is shorter than the grace period), no tick issues the privileged
stop command. -/
theorem C4_hysteresis (i0 : TickInput) (rest : List TickInput) (st : CoordState)
    (hst : st.gpu_process_start_time = none)
    (hne : ∀ inp ∈ i0 :: rest, (get_gpu_intensive_processes inp.snapshot).isEmpty = false)
    (hdur : ∀ inp ∈ i0 :: rest, inp.time2 < i0.time1 + grace_period) :
    ∀ e ∈ trace st (i0 :: rest), Cmd.stop ∉ e.2.2 := by
  obtain ⟨fl, timer⟩ := st
  simp only at hst
  subst hst
  have h1 := tick_start_timer fl i0
    (hne i0 (List.mem_cons_self i0 rest)) (hdur i0 (List.mem_cons_self i0 rest))
  intro e he
  rw [trace, h1] at he
  rcases List.mem_cons.mp he with rfl | he2
  · simp
  · exact trace_no_stop_aux i0.time1 rest fl
      (fun j hj => hne j (List.mem_cons_of_mem i0 hj))
      (fun j hj => hdur j (List.mem_cons_of_mem i0 hj)) e he2

/-- A contending tick at relative time 5, inside the grace period. -/
def inpShort1 : TickInput := ⟨none, spRdb, 0, 5, true, true, true, true⟩

/-- A contending tick at relative time 7, still inside the grace period. -/
def inpShort2 : TickInput := ⟨none, spRdb, 7, 7, true, true, true, true⟩

/-- C4, witness: a two-tick contention episode of duration under eight
seconds, with the service active and stop able to succeed, never issues
the stop command. -/
theorem C4_hysteresis_witness :
    initState.gpu_process_start_time = none ∧
    (∀ inp ∈ [inpShort1, inpShort2],
      (get_gpu_intensive_processes inp.snapshot).isEmpty = false) ∧
    (∀ inp ∈ [inpShort1, inpShort2], inp.time2 < inpShort1.time1 + grace_period) ∧
    (∀ e ∈ trace initState [inpShort1, inpShort2], Cmd.stop ∉ e.2.2) :=
  ⟨rfl, by decide, by decide,
   C4_hysteresis inpShort1 [inpShort2] initState rfl (by decide) (by decide)⟩

theorem tick_failed_stop (st : CoordState) (inp : TickInput)
    (hfail : inp.stop_ok = false)
    (hne : (get_gpu_intensive_processes inp.snapshot).isEmpty = false) :
    tick st inp =
      (⟨st.vllm_was_running, some (st.gpu_process_start_time.getD inp.time1)⟩,
       if grace_period ≤ inp.time2 - st.gpu_process_start_time.getD inp.time1
           ∧ inp.vllm_active1 = true then
         (if inp.vllm_active2 = true then [Cmd.stop] else [])
       else []) := by
  unfold tick stop_vllm
  simp [hne, hfail]
  split
  · split <;> simp_all
  · rfl

/-- C6: when the privileged stop command fails (and contention is being
observed), _stop_vllm leaves vllm_was_running exactly as it was, the
tick leaves the contention timer at the value it would have anyway, and a
tick on which the stop conditions hold does issue the stop command — so a
later tick with unchanged conditions retries the stop. -/
theorem C6_stop_failure_atomic (st : CoordState) (inp : TickInput)
    (hfail : inp.stop_ok = false)
    (hne : (get_gpu_intensive_processes inp.snapshot).isEmpty = false) :
    (stop_vllm st.vllm_was_running inp.vllm_active2 inp.stop_ok).1 = st.vllm_was_running ∧
    (tick st inp).1.vllm_was_running = st.vllm_was_running ∧
    (tick st inp).1.gpu_process_start_time =
      some (st.gpu_process_start_time.getD inp.time1) ∧
    (grace_period ≤ inp.time2 - st.gpu_process_start_time.getD inp.time1 →
      inp.vllm_active1 = true → inp.vllm_active2 = true →
      Cmd.stop ∈ (tick st inp).2) := by
  have ht := tick_failed_stop st inp hfail hne
  refine ⟨by rw [hfail]; cases inp.vllm_active2 <;> simp [stop_vllm], ?_, ?_, ?_⟩
  · rw [ht]
  · rw [ht]
  · intro h1 h2 h3
    rw [ht]
    simp [h1, h2, h3]

/-- A contending tick past the grace period whose stop command fails. -/
def inpStopFail : TickInput := ⟨none, spRdb, 0, 10, true, true, false, true⟩

/-- C6, witness: a failing stop on a contending tick past the grace period
leaves the flag false and the timer at its prior value, yet the stop
command was issued on that tick (and so would be reissued later). -/
theorem C6_stop_failure_atomic_witness :
    (tick ⟨false, some 0⟩ inpStopFail).1.vllm_was_running = false ∧
    (tick ⟨false, some 0⟩ inpStopFail).1.gpu_process_start_time = some 0 ∧
    Cmd.stop ∈ (tick ⟨false, some 0⟩ inpStopFail).2 :=
  ⟨(C6_stop_failure_atomic ⟨false, some 0⟩ inpStopFail rfl (by decide)).2.1,
   (C6_stop_failure_atomic ⟨false, some 0⟩ inpStopFail rfl (by decide)).2.2.1,
   (C6_stop_failure_atomic ⟨false, some 0⟩ inpStopFail rfl (by decide)).2.2.2
     (by decide) rfl rfl⟩

theorem loopExec_raise (inp : TickInput) (rest : List TickInput) (k : Interrupt)
    (hr : inp.raised = some k) :
    ∀ (pre : List TickInput) (st : CoordState), (∀ j ∈ pre, j.raised = none) →
    loopExec st (pre ++ inp :: rest) = (execTicks st pre, trace st pre, some k) := by
  intro pre
  induction pre with
  | nil =>
    intro st _
    simp [loopExec, execTicks, trace, hr]
  | cons j t ih =>
    intro st hpre
    have hj : j.raised = none := hpre j (List.mem_cons_self j t)
    simp only [List.cons_append, List.append_eq, loopExec, hj, execTicks, trace]
    rw [ih (tick st j).1 (fun x hx => hpre x (List.mem_cons_of_mem j hx))]

/-- C8, amended: an exception raised in a tick body is not caught unless it
is a KeyboardInterrupt: the loop terminates at that tick (no later input is
processed), the state reached by the raise-free prefix flows into the
finally-block cleanup, which still runs, and the exception propagates out
of run exactly when it is not a KeyboardInterrupt. -/
theorem C8_exception_terminates_loop (pre : List TickInput) (inp : TickInput)
    (rest : List TickInput) (k : Interrupt) (ok : Bool)
    (hpre : ∀ j ∈ pre, j.raised = none) (hr : inp.raised = some k) :
    loopExec initState (pre ++ inp :: rest) =
      (execTicks initState pre, trace initState pre, some k) ∧
    (runLoop initState (pre ++ inp :: rest) ok).2.1 =
      (cleanup (execTicks initState pre) ok).2 ∧
    (runLoop initState (pre ++ inp :: rest) ok).2.2 =
      (if k = Interrupt.other then some Interrupt.other else none) := by
  have h := loopExec_raise inp rest k hr pre initState hpre
  refine ⟨h, ?_, ?_⟩
  · unfold runLoop
    rw [h]
  · unfold runLoop
    rw [h]
    cases k <;> simp

/-- C8, witness: one healthy contending tick, then a tick raising a
non-KeyboardInterrupt exception, then a further input: the loop stops at
the raising tick, cleanup runs from the state after the healthy prefix,
and the exception escapes run. -/
theorem C8_exception_terminates_loop_witness :
    loopExec initState ([inpContend] ++ inpRaise :: [inpEmptyOk]) =
      (execTicks initState [inpContend], trace initState [inpContend],
       some Interrupt.other) ∧
    (runLoop initState ([inpContend] ++ inpRaise :: [inpEmptyOk]) true).2.1 =
      (cleanup (execTicks initState [inpContend]) true).2 ∧
    (runLoop initState ([inpContend] ++ inpRaise :: [inpEmptyOk]) true).2.2 =
      (if Interrupt.other = Interrupt.other then some Interrupt.other else none) :=
  C8_exception_terminates_loop [inpContend] inpRaise [inpEmptyOk]
    Interrupt.other true (by decide) rfl

/-- C10: a process whose command line matches a literal pattern only up to
letter case (and matches no keyword stem after lowercasing) is excluded by
the classifier — the literal patterns are matched case-sensitively — while
any command line whose lowercased form holds a keyword stem is classified
GPU-intensive, keyword matching being case-insensitive. -/
theorem C10_case_asymmetry (pid : Nat) (c : List Char) (snapshot : List ProcInfo)
    (_hdiff : ∃ p ∈ gpu_intensive_processes,
      containsSub (lowerStr p) (lowerStr c) = true ∧ containsSub p c = false)
    (hpat : ∀ p ∈ gpu_intensive_processes, containsSub p c = false)
    (hkw : ∀ k ∈ gpu_keywords, containsSub k (lowerStr c) = false) :
    is_process_gpu_intensive (some c) = false ∧
    (⟨pid, some c⟩ : ProcInfo) ∉ get_gpu_intensive_processes snapshot ∧
    (∀ d : List Char, (∃ k ∈ gpu_keywords, containsSub k (lowerStr d) = true) →
      is_process_gpu_intensive (some d) = true) := by
  have h1 : is_process_gpu_intensive (some c) = false := by
    unfold is_process_gpu_intensive
    have ha : gpu_intensive_processes.any (fun pattern => containsSub pattern c) = false := by
      rw [List.any_eq_false]
      intro p hp
      simp [hpat p hp]
    have hb : gpu_keywords.any (fun keyword => containsSub keyword (lowerStr c)) = false := by
      rw [List.any_eq_false]
      intro k hk
      simp [hkw k hk]
    simp [ha, hb]
  refine ⟨h1, ?_, ?_⟩
  · simp [get_gpu_intensive_processes, List.mem_filter, h1]
  · intro d hd
    rcases hd with ⟨k, hk, hks⟩
    have hany : gpu_keywords.any (fun keyword => containsSub keyword (lowerStr d)) = true :=
      List.any_eq_true.mpr ⟨k, hk, hks⟩
    unfold is_process_gpu_intensive
    cases hpa : gpu_intensive_processes.any (fun pattern => containsSub pattern d) <;>
      simp [hpa, hany]

/-- C10, witness: the command line RDB holds the pattern rdb only up to
case and no keyword stem once lowercased, so the classifier excludes it,
both directly and from a snapshot. -/
theorem C10_case_asymmetry_witness :
    (∃ p ∈ gpu_intensive_processes,
      containsSub (lowerStr p) (lowerStr (String.toList "RDB")) = true ∧
      containsSub p (String.toList "RDB") = false) ∧
    is_process_gpu_intensive (some (String.toList "RDB")) = false ∧
    (⟨1, some (String.toList "RDB")⟩ : ProcInfo) ∉
      get_gpu_intensive_processes [⟨1, some (String.toList "RDB")⟩] :=
  ⟨by decide,
   (C10_case_asymmetry 1 (String.toList "RDB") [⟨1, some (String.toList "RDB")⟩]
     (by decide) (by decide) (by decide)).1,
   (C10_case_asymmetry 1 (String.toList "RDB") [⟨1, some (String.toList "RDB")⟩]
     (by decide) (by decide) (by decide)).2.1⟩

end GpuCoordinator
